import Mathlib

/-!
# Verification of the LicenseSeat JavaScript SDK specification

Shallow embedding of the parts of `src/LicenseSeat.js`, `src/cache.js` and
`src/utils.js` that the spec claims are about.  JavaScript values are modelled
as follows: a possibly-absent field becomes `Option`, millisecond timestamps
become `Int` (ISO date strings are modelled by the instant they denote),
JavaScript string-truthiness (`""` is falsy) is modelled explicitly, and
fallible operations return `Except`.  The Ed25519 signature primitive and
`JSON.parse` are external collaborators and enter as function parameters.
-/

namespace LicenseSeat

/-- JavaScript truthiness of an optional string: absent and `""` are falsy. -/
def jsStrTruthy : Option String → Bool
  | none => false
  | some s => s ≠ ""

/-- JavaScript `a || b` on optional strings (`""` counts as falsy). -/
def jsOrStr (a b : Option String) : Option String :=
  if jsStrTruthy a then a else b

/-- `utils.js constantTimeEqual`: length check, then OR-accumulated XOR of
char codes, equality with 0 at the end. -/
def constantTimeEqual (a b : String) : Bool :=
  if a.length ≠ b.length then false
  else ((a.data.zip b.data).foldl
      (fun res p => res ||| (p.1.toNat ^^^ p.2.toNat)) 0) == 0

/-- An entitlement as normalized by `utils.js parseActiveEntitlements`:
`{key, expires_at ?? null, metadata ?? null}`. -/
structure Entitlement where
  key : String
  expires_at : Option Int
  metadata : Option String
deriving DecidableEq

/-- A `ValidationResult` (`types.js`): absent `code`/`message` are `none`,
an absent `active_entitlements` field is the empty list. -/
structure ValidationResult where
  valid : Bool
  offline : Bool
  code : Option String
  message : Option String
  active_entitlements : List Entitlement
deriving DecidableEq

/-- The failing offline results `{ valid: false, offline: true, code: c }`. -/
def offlineFail (c : String) : ValidationResult :=
  { valid := false, offline := true, code := some c, message := none,
    active_entitlements := [] }

/-- The `token` payload of a signed offline token.  `exp` is a Unix timestamp
in seconds; `active_ents` / `active_entitlements` are the two raw entitlement
field spellings consumed by `parseActiveEntitlements`. -/
structure OfflineTokenPayload where
  license_key : Option String
  exp : Option Int
  kid : Option String
  active_ents : Option (List Entitlement)
  active_entitlements : Option (List Entitlement)
deriving DecidableEq

/-- `utils.js parseActiveEntitlements`:
`payload.active_ents || payload.active_entitlements || []` followed by the
field-normalizing map (the identity on the already-normalized model). -/
def parseActiveEntitlements (tok : OfflineTokenPayload) : List Entitlement :=
  match tok.active_ents with
  | some l => l
  | none => tok.active_entitlements.getD []

/-- A signed offline token `{ token, signature: {key_id, value}, canonical }`. -/
structure SignedToken where
  token : OfflineTokenPayload
  signature_key_id : Option String
  signature_value : String
  canonical : String
deriving DecidableEq

/-- A `CachedLicense` record.  `activated_at` / `last_validated` are ISO date
strings in the source; they are modelled by the instants (ms) they denote,
with `none` for an absent (falsy) field. -/
structure CachedLicense where
  license_key : Option String
  device_id : Option String
  activated_at : Option Int
  last_validated : Option Int
  validation : Option ValidationResult
deriving DecidableEq

/-- The license cache state owned by `cache.js`: cached license, cached
offline token, the public-key-by-key-id map and the last-seen timestamp. -/
structure CacheState where
  license : Option CachedLicense
  offlineToken : Option SignedToken
  publicKeys : List (String × String)
  lastSeen : Option Int
deriving DecidableEq

/-- `cache.js getPublicKey`: `cache[keyId] || null` (an empty value is falsy,
hence `null`). -/
def cacheGetPublicKey (s : CacheState) (keyId : String) : Option String :=
  match s.publicKeys.lookup keyId with
  | some v => if v = "" then none else some v
  | none => none

/-- `cache.js setPublicKey` (assoc-list update; `lookup` sees the new pair). -/
def cacheSetPublicKey (s : CacheState) (keyId pk : String) : CacheState :=
  { s with publicKeys := (keyId, pk) :: s.publicKeys }

/-- The configuration fields consulted by the offline verification engine. -/
structure Config where
  maxOfflineDays : Int
  maxClockSkewMs : Int
  productSlug : Option String
deriving DecidableEq

/-- The signature primitive: given canonical bytes, signature value and public
key it decides validity; `.error` models a thrown decode/crypto exception. -/
def SigVerifier := String → String → String → Except Unit Bool

/-- `LicenseSeat.js verifyOfflineToken` restricted to its outcome: missing /
empty `canonical` or public key throws; otherwise the Ed25519 primitive
(with its possible decode exceptions) decides. -/
def verifyOfflineToken (ed : SigVerifier) (signed : SignedToken)
    (pub : String) : Except Unit Bool :=
  if signed.canonical = "" then .error ()
  else if pub = "" then .error ()
  else ed signed.canonical signed.signature_value pub

/-- `signed.signature?.key_id || signed.token?.kid`. -/
def tokenKid (signed : SignedToken) : Option String :=
  jsOrStr signed.signature_key_id signed.token.kid

/-- The public key found in the cache for a signed token, if any
(`kid ? this.cache.getPublicKey(kid) : null`). -/
def cachedPub (s : CacheState) (signed : SignedToken) : Option String :=
  if jsStrTruthy (tokenKid signed) then
    match tokenKid signed with
    | some k => cacheGetPublicKey s k
    | none => none
  else none

/-- `LicenseSeat.js getSigningKey` via the network: throws when `keyId` is
falsy, when the fetch fails, or when the response has no truthy
`public_key`. -/
def resolveSigningKey (fetchKey : String → Option String) :
    Option String → Option String
  | none => none
  | some k =>
      if k = "" then none
      else match fetchKey k with
        | none => none
        | some pk => if pk = "" then none else some pk

/-- `verifyCachedOffline` after the public key is resolved: signature check,
constant-time license-key binding, expiry, grace period, clock tamper, then
success with a refreshed last-seen timestamp (`LicenseSeat.js:1095-1147`). -/
def afterKey (ed : SigVerifier) (cfg : Config) (now : Int) (s : CacheState)
    (signed : SignedToken) (pub : String) : ValidationResult × CacheState :=
  match verifyOfflineToken ed signed pub with
  | .error _ => (offlineFail "verification_error", s)
  | .ok false => (offlineFail "signature_invalid", s)
  | .ok true =>
    let tok := signed.token
    match s.license with
    | none => (offlineFail "license_mismatch", s)
    | some cached =>
      if !constantTimeEqual (tok.license_key.getD "") (cached.license_key.getD "")
      then (offlineFail "license_mismatch", s)
      else
        -- exp is seconds; `token.exp ? token.exp * 1000 : null` (0 is falsy)
        let expAt : Option Int :=
          match tok.exp with
          | some e => if e ≠ 0 then some (e * 1000) else none
          | none => none
        let isExpired : Bool :=
          match expAt with
          | some ea => decide (ea < now)
          | none => false
        if isExpired then (offlineFail "expired", s)
        else
          let pivot : Option Int :=
            match cached.last_validated with
            | some v => some v
            | none => cached.activated_at
          let graceExpired : Bool :=
            expAt.isNone && decide (cfg.maxOfflineDays > 0) &&
              (match pivot with
               | some p =>
                  decide (now - p > cfg.maxOfflineDays * 24 * 60 * 60 * 1000)
               | none => false)
          if graceExpired then (offlineFail "grace_period_expired", s)
          else
            let tamper : Bool :=
              match s.lastSeen with
              | some ls => ls ≠ 0 && decide (now + cfg.maxClockSkewMs < ls)
              | none => false
            if tamper then (offlineFail "clock_tamper", s)
            else
              ({ valid := true, offline := true, code := none, message := none,
                 active_entitlements := parseActiveEntitlements tok },
               { s with lastSeen := some now })

/-- `LicenseSeat.js verifyCachedOffline` (lines 1077-1148): the
network-capable offline verification.  `fetchKey` models `getSigningKey`
over the network; on a successful fetch the key is cached. -/
def verifyCachedOffline (ed : SigVerifier) (fetchKey : String → Option String)
    (cfg : Config) (now : Int) (s : CacheState) :
    ValidationResult × CacheState :=
  match s.offlineToken with
  | none => (offlineFail "no_offline_token", s)
  | some signed =>
    match cachedPub s signed with
    | some p => afterKey ed cfg now s signed p
    | none =>
      match tokenKid signed with
      | some k =>
          if k = "" then (offlineFail "no_public_key", s)
          else match fetchKey k with
            | some pk =>
                if pk = "" then (offlineFail "no_public_key", s)
                else afterKey ed cfg now (cacheSetPublicKey s k pk) signed pk
            | none => (offlineFail "no_public_key", s)
      | none => (offlineFail "no_public_key", s)

/-- `LicenseSeat.js quickVerifyCachedOfflineLocal` (lines 1156-1200): the
local-only variant.  Returns `none` when the token or its public key is not
cached; performs signature, license-key, expiry and clock-tamper checks but
no grace-period check, and never touches the cache state. -/
def quickVerifyCachedOfflineLocal (ed : SigVerifier) (cfg : Config)
    (now : Int) (s : CacheState) : Option ValidationResult :=
  match s.offlineToken with
  | none => none
  | some signed =>
    match cachedPub s signed with
    | none => none
    | some pub =>
      match verifyOfflineToken ed signed pub with
      | .error _ => some (offlineFail "verification_error")
      | .ok false => some (offlineFail "signature_invalid")
      | .ok true =>
        let tok := signed.token
        match s.license with
        | none => some (offlineFail "license_mismatch")
        | some cached =>
          if !constantTimeEqual (tok.license_key.getD "")
              (cached.license_key.getD "")
          then some (offlineFail "license_mismatch")
          else
            let expAt : Option Int :=
              match tok.exp with
              | some e => if e ≠ 0 then some (e * 1000) else none
              | none => none
            let isExpired : Bool :=
              match expAt with
              | some ea => decide (ea < now)
              | none => false
            if isExpired then some (offlineFail "expired")
            else
              let tamper : Bool :=
                match s.lastSeen with
                | some ls => ls ≠ 0 && decide (now + cfg.maxClockSkewMs < ls)
                | none => false
              if tamper then some (offlineFail "clock_tamper")
              else
                some { valid := true, offline := true, code := none,
                       message := none,
                       active_entitlements := parseActiveEntitlements tok }

/-- JavaScript `a || b` where `a` is an optional string and `b` a default. -/
def jsStrGetD (a : Option String) (b : String) : String :=
  match a with
  | some s => if s = "" then b else s
  | none => b

/-- The record returned by `LicenseSeat.js getStatus`, reduced to the fields
the source populates (`status`, `message`, `entitlements`). -/
structure StatusReport where
  status : String
  message : Option String
  entitlements : List Entitlement
deriving DecidableEq

/-- `LicenseSeat.js getStatus` (lines 662-705). -/
def getStatus (s : CacheState) : StatusReport :=
  match s.license with
  | none => { status := "inactive", message := some "No license activated",
              entitlements := [] }
  | some license =>
    match license.validation with
    | none => { status := "pending", message := some "License pending validation",
                entitlements := [] }
    | some validation =>
      if !validation.valid then
        if validation.offline then
          { status := "offline-invalid",
            message := some (jsStrGetD validation.code "License invalid (offline)"),
            entitlements := [] }
        else
          { status := "invalid",
            message := some (jsStrGetD validation.message
              (jsStrGetD validation.code "License invalid")),
            entitlements := [] }
      else if validation.offline then
        { status := "offline-valid", message := none,
          entitlements := validation.active_entitlements }
      else
        { status := "active", message := none,
          entitlements := validation.active_entitlements }

/-- The errors distinguished by the network layer: `TypeError` (fetch
transport failure), `APIError` with an HTTP status, anything else. -/
inductive JsError where
  | typeError (message : String)
  | apiError (message : String) (status : Int)
  | otherError
deriving DecidableEq

/-- Char-list version of JavaScript `String.prototype.includes`: does the
needle occur at the head? -/
def headMatches : List Char → List Char → Bool
  | [], _ => true
  | _ :: _, [] => false
  | a :: as, b :: bs => a == b && headMatches as bs

/-- Does the needle occur anywhere in the haystack? -/
def subAt : List Char → List Char → Bool
  | needle, [] => headMatches needle []
  | needle, c :: t =>
      headMatches needle (c :: t) || subAt needle t

/-- JavaScript `hay.includes(needle)`. -/
def hasSub (hay needle : String) : Bool := subAt needle.data hay.data

/-- `LicenseSeat.js shouldRetryError` (lines 1321-1343). -/
def shouldRetryError : JsError → Bool
  | .typeError msg => hasSub msg "fetch"
  | .apiError _ status =>
      if status ≥ 502 && status < 600 then true
      else if status = 0 || status = 408 || status = 429 then true
      else false
  | .otherError => false

/-- The retry/backoff configuration of `apiCall`. -/
structure RetryConfig where
  maxRetries : Nat
  retryDelay : Int
deriving DecidableEq

/-- The retry loop of `LicenseSeat.js apiCall` (lines 1245-1312), abstracted
over the outcome of each attempt.  Returns the final result and the list of
backoff delays slept, in order.  `fuel` is `maxRetries + 1 - attempt`; the
source loop always exits before exhausting its bound. -/
def apiCallAux (cfg : RetryConfig) (responses : Nat → Except JsError Nat) :
    Nat → Nat → Except JsError Nat × List Int
  | _, 0 => (.error .otherError, [])
  | attempt, fuel + 1 =>
    match responses attempt with
    | .ok r => (.ok r, [])
    | .error e =>
      if attempt < cfg.maxRetries && shouldRetryError e then
        let d := cfg.retryDelay * 2 ^ attempt
        let rest := apiCallAux cfg responses (attempt + 1) fuel
        (rest.1, d :: rest.2)
      else (.error e, [])

/-- `LicenseSeat.js apiCall`: run attempts `0..maxRetries`. -/
def apiCall (cfg : RetryConfig) (responses : Nat → Except JsError Nat) :
    Except JsError Nat × List Int :=
  apiCallAux cfg responses 0 (cfg.maxRetries + 1)

/-- The outcome of `LicenseSeat.js deactivate`. -/
inductive DeacResult where
  | configurationError
  | licenseError (code : String)
  | apiError (e : JsError)
  | ok (resp : String)
deriving DecidableEq

/-- `LicenseSeat.js deactivate` (lines 319-354): require a truthy
`productSlug`, require a cached license (else a `no_license` LicenseError
before any remote call), then one remote call; on success clear the cached
license and offline token.  The returned `Bool` records whether the remote
call was made. -/
def deactivate (cfg : Config) (remote : Except JsError String)
    (s : CacheState) : DeacResult × CacheState × Bool :=
  if !jsStrTruthy cfg.productSlug then (.configurationError, s, false)
  else match s.license with
    | none => (.licenseError "no_license", s, false)
    | some _ =>
      match remote with
      | .ok r =>
          (.ok r, { s with license := none, offlineToken := none }, true)
      | .error e => (.apiError e, s, true)

/-- The server response consumed by the online path of `validateLicense`,
already flattened to the fields the source reads. -/
structure ApiValidationResp where
  valid : Bool
  code : Option String
  message : Option String
  license_active_entitlements : Option (List Entitlement)
deriving DecidableEq

/-- The SDK state touched by the online path of `validateLicense`: cache,
validation-timer flag and tracked auto-validation key. -/
structure SdkState where
  cache : CacheState
  validationTimerRunning : Bool
  currentAutoLicenseKey : Option String
deriving DecidableEq

/-- `cache.js updateValidation`: merge a validation result into the cached
license and refresh `last_validated`; no-op when nothing is cached. -/
def cacheUpdateValidation (now : Int) (v : ValidationResult)
    (s : CacheState) : CacheState :=
  match s.license with
  | none => s
  | some lic =>
      { s with license := some { lic with
                                  validation := some v,
                                  last_validated := some now } }

/-- The online (non-throwing) path of `LicenseSeat.js validateLicense`
(lines 383-421): normalize the response, preserve cached entitlements when
the server omits them, merge into the cache when the key matches, stop the
validation timer on a definitive invalid, and set the last-seen timestamp. -/
def validateLicenseOnline (now : Int) (raw : ApiValidationResp)
    (licenseKey : String) (st : SdkState) : ValidationResult × SdkState :=
  let response0 : ValidationResult :=
    { valid := raw.valid, offline := false, code := raw.code,
      message := raw.message,
      active_entitlements := raw.license_active_entitlements.getD [] }
  let cachedEnts : List Entitlement :=
    match st.cache.license with
    | some lic =>
        match lic.validation with
        | some v => v.active_entitlements
        | none => []
    | none => []
  let response : ValidationResult :=
    if response0.active_entitlements.isEmpty && !cachedEnts.isEmpty then
      { response0 with active_entitlements := cachedEnts }
    else response0
  let cache1 : CacheState :=
    match st.cache.license with
    | some lic =>
        if lic.license_key = some licenseKey then
          cacheUpdateValidation now response st.cache
        else st.cache
    | none => st.cache
  let st1 : SdkState :=
    if response.valid then
      { st with cache := { cache1 with lastSeen := some now } }
    else
      { st with
          cache := cache1,
          validationTimerRunning := false,
          currentAutoLicenseKey := none }
  let st2 : SdkState :=
    { st1 with cache := { st1.cache with lastSeen := some now } }
  (response, st2)

/-! ## Low-level persistent store model (`cache.js` read operations)

`localStorage.getItem` either yields a value (possibly absent) or throws
(storage access denied / security error).  `JSON.parse` enters as a
parameter, with `none` modelling a thrown parse error on corrupted data. -/

/-- One read from the persistent store: a value, absence, or a throw. -/
inductive StoreRead where
  | val : Option String → StoreRead
  | err : StoreRead
deriving DecidableEq

/-- The persistent store as seen through `localStorage.getItem`. -/
structure LocalStore where
  read : String → StoreRead

/-- `cache.js getLicense` (lines 27-35): try/catch around read + parse;
any store or parse error degrades to `null`. -/
def lsGetLicense (parse : String → Option CachedLicense)
    (st : LocalStore) : Option CachedLicense :=
  match st.read "licenseseat_license" with
  | .err => none
  | .val none => none
  | .val (some d) => if d = "" then none else parse d

/-- `cache.js getOfflineToken` (lines 85-93): same try/catch shape. -/
def lsGetOfflineToken (parse : String → Option SignedToken)
    (st : LocalStore) : Option SignedToken :=
  match st.read "licenseseat_offline_token" with
  | .err => none
  | .val none => none
  | .val (some d) => if d = "" then none else parse d

/-- `cache.js getPublicKey` (lines 124-134): try/catch around
`JSON.parse(getItem(k) || "\x7b\x7d")` and the map lookup. -/
def lsGetPublicKey (parseMap : String → Option (List (String × String)))
    (st : LocalStore) (keyId : String) : Option String :=
  match st.read "licenseseat_public_keys" with
  | .err => none
  | .val v =>
    let dataStr := match v with
      | none => "\x7b\x7d"
      | some d => if d = "" then "\x7b\x7d" else d
    match parseMap dataStr with
    | none => none
    | some m =>
      match m.lookup keyId with
      | some pk => if pk = "" then none else some pk
      | none => none

/-- A JavaScript number that may be `NaN` (what `parseInt` can produce). -/
inductive JsNum where
  | num (n : Int)
  | nan
deriving DecidableEq

/-- JavaScript `parseInt(v, 10)`: optional sign, then a digit prefix;
no leading digit gives `NaN`. -/
def jsParseInt (s : String) : JsNum :=
  let cs := s.data
  let signed : Bool × List Char :=
    match cs with
    | '-' :: t => (true, t)
    | '+' :: t => (false, t)
    | _ => (false, cs)
  let ds := signed.2.takeWhile Char.isDigit
  if ds.isEmpty then .nan
  else
    let v : Int := ds.foldl (fun a c => a * 10 + (Int.ofNat (c.toNat - 48))) 0
    .num (if signed.1 then -v else v)

/-- `cache.js getLastSeenTimestamp` (lines 170-173): NO try/catch — a
throwing `getItem` propagates; a non-empty value is fed to `parseInt`. -/
def lsGetLastSeenTimestamp (st : LocalStore) : Except Unit (Option JsNum) :=
  match st.read "licenseseat_last_seen_ts" with
  | .err => .error ()
  | .val none => .ok none
  | .val (some v) => if v = "" then .ok none else .ok (some (jsParseInt v))

/-! ## Helper predicates mirroring the individual checks

These restate single checks of `verifyCachedOffline` as standalone
predicates; the claim theorems relate the full function to them. -/

/-- The token's expiry instant in ms (`token.exp ? token.exp * 1000 : null`). -/
def tokenExpMs (signed : SignedToken) : Option Int :=
  match signed.token.exp with
  | some e => if e ≠ 0 then some (e * 1000) else none
  | none => none

/-- Is the token past its expiry at `now`? -/
def tokenExpired (signed : SignedToken) (now : Int) : Bool :=
  match tokenExpMs signed with
  | some ea => decide (ea < now)
  | none => false

/-- Does the token's license key pass the constant-time binding check
against the cached license? -/
def licenseKeyMatches (s : CacheState) (signed : SignedToken) : Bool :=
  match s.license with
  | none => false
  | some cached =>
      constantTimeEqual (signed.token.license_key.getD "")
        (cached.license_key.getD "")

/-- Does the grace-period check fire at `now`? -/
def graceExpiredChk (cfg : Config) (now : Int) (s : CacheState)
    (signed : SignedToken) : Bool :=
  match s.license with
  | none => false
  | some cached =>
    (tokenExpMs signed).isNone && decide (cfg.maxOfflineDays > 0) &&
      (match (match cached.last_validated with
              | some v => some v
              | none => cached.activated_at) with
       | some p => decide (now - p > cfg.maxOfflineDays * 24 * 60 * 60 * 1000)
       | none => false)

/-- Does the clock-tamper check fire at `now`? -/
def tamperChk (cfg : Config) (now : Int) (s : CacheState) : Bool :=
  match s.lastSeen with
  | some ls => decide (ls ≠ 0) && decide (now + cfg.maxClockSkewMs < ls)
  | none => false

/-- The public key `verifyCachedOffline` ends up using: the cached one, else
the one the network resolves (`none` = resolution fails). -/
def resolvePub (fetchKey : String → Option String) (s : CacheState)
    (signed : SignedToken) : Option String :=
  match cachedPub s signed with
  | some p => some p
  | none => resolveSigningKey fetchKey (tokenKid signed)

/-! ## Concrete fixtures used by boundary theorems and witnesses -/

/-- A signature primitive that accepts everything (a well-signed token). -/
def evTrue : SigVerifier := fun _ _ _ => .ok true

/-- A signature primitive that rejects everything (a forged token). -/
def evFalse : SigVerifier := fun _ _ _ => .ok false

/-- A network that never resolves a signing key. -/
def fkNone : String → Option String := fun _ => none

/-- A token payload bound to license key LIC-1, no expiry, key id k1. -/
def tokL1 : OfflineTokenPayload :=
  { license_key := some "LIC-1", exp := none, kid := some "k1",
    active_ents := none, active_entitlements := none }

/-- The signed token wrapping `tokL1`. -/
def signedL1 : SignedToken :=
  { token := tokL1, signature_key_id := some "k1",
    signature_value := "sig-bytes", canonical := "canonical-bytes" }

/-- A cached license for LIC-1 activated and last validated at epoch 0. -/
def licL1 : CachedLicense :=
  { license_key := some "LIC-1", device_id := some "dev-1",
    activated_at := some 0, last_validated := some 0, validation := none }

/-- Configuration with the claimed 5-minute clock skew and grace disabled. -/
def cfgTamper : Config :=
  { maxOfflineDays := 0, maxClockSkewMs := 300000, productSlug := some "app" }

/-- Configuration with the claimed 7-day grace period. -/
def cfgGrace : Config :=
  { maxOfflineDays := 7, maxClockSkewMs := 300000, productSlug := some "app" }

/-- Cache state for the clock-tamper boundary: matching token and license,
public key cached, last-seen timestamp `T`. -/
def stTamper (T : Int) : CacheState :=
  { license := some licL1, offlineToken := some signedL1,
    publicKeys := [("k1", "PK")], lastSeen := some T }

/-- A cached license whose pivot fields are parameters. -/
def licPivot (lv aa : Option Int) : CachedLicense :=
  { license_key := some "LIC-1", device_id := some "dev-1",
    activated_at := aa, last_validated := lv, validation := none }

/-- Cache state for the grace-period boundary: matching token and license,
public key cached, no last-seen timestamp. -/
def stGrace (lv aa : Option Int) : CacheState :=
  { license := some (licPivot lv aa), offlineToken := some signedL1,
    publicKeys := [("k1", "PK")], lastSeen := none }

/-- The offline success result carrying no entitlements. -/
def offlineOk : ValidationResult :=
  { valid := true, offline := true, code := none, message := none,
    active_entitlements := [] }

/-- A persistent store whose every read throws (storage access denied). -/
def errStore : LocalStore := ⟨fun _ => .err⟩

/-- A persistent store whose every read yields a corrupt (unparsable)
value. -/
def corruptStore : LocalStore := ⟨fun _ => .val (some "corrupt")⟩


/-- The offline success result
`{valid: true, offline: true, active_entitlements?}`. -/
def offlineSuccess (tok : OfflineTokenPayload) : ValidationResult :=
  { valid := true, offline := true, code := none, message := none,
    active_entitlements := parseActiveEntitlements tok }

/-- The cache state after `verifyCachedOffline` resolved the public key:
unchanged when it was cached, extended by the fetched key otherwise. -/
def resolveState (fetchKey : String → Option String) (s : CacheState)
    (signed : SignedToken) : CacheState :=
  match cachedPub s signed with
  | some _ => s
  | none =>
    match tokenKid signed, resolveSigningKey fetchKey (tokenKid signed) with
    | some k, some pk => cacheSetPublicKey s k pk
    | _, _ => s

/-- A token payload for LIC-1 expiring at Unix second 2 (instant 2000 ms). -/
def tokExp : OfflineTokenPayload :=
  { license_key := some "LIC-1", exp := some 2, kid := some "k1",
    active_ents := none, active_entitlements := none }

/-- The signed token wrapping `tokExp`. -/
def signedExp : SignedToken :=
  { token := tokExp, signature_key_id := some "k1",
    signature_value := "sig-bytes", canonical := "canonical-bytes" }

/-- Cache state with the expiring token, matching license and cached key. -/
def stExp : CacheState :=
  { license := some licL1, offlineToken := some signedExp,
    publicKeys := [("k1", "PK")], lastSeen := none }

/-- Retry configuration with 2 retries and a 7 ms base delay. -/
def cfgRetryW : RetryConfig := { maxRetries := 2, retryDelay := 7 }

/-- Attempt outcomes: two retryable 503 failures, then success. -/
def respW : Nat → Except JsError Nat := fun n =>
  if n < 2 then .error (.apiError "overloaded" 503) else .ok 42

/-- Attempt outcomes: a non-retryable 400 failure. -/
def respFail : Nat → Except JsError Nat := fun _ =>
  .error (.apiError "bad" 400)

/-! ## Helper lemmas -/

/-- Bitwise OR of naturals vanishes exactly when both sides do. -/
theorem natOrZero (a b : Nat) : a ||| b = 0 ↔ a = 0 ∧ b = 0 := by
  constructor
  · intro h
    have ha : a = 0 := by
      apply Nat.eq_of_testBit_eq
      intro i
      have hb := congrArg (fun x => Nat.testBit x i) h
      simp [Nat.testBit_lor] at hb
      simp [hb.1]
    have hb : b = 0 := by
      apply Nat.eq_of_testBit_eq
      intro i
      have hb := congrArg (fun x => Nat.testBit x i) h
      simp [Nat.testBit_lor] at hb
      simp [hb.2]
    exact ⟨ha, hb⟩
  · rintro ⟨rfl, rfl⟩
    simp

/-- The OR-fold of `constantTimeEqual` vanishes exactly when the seed does
and every element maps to zero. -/
theorem foldlOrZero (f : α → Nat) : ∀ (l : List α) (init : Nat),
    (l.foldl (fun r x => r ||| f x) init = 0) ↔
      (init = 0 ∧ ∀ x ∈ l, f x = 0) := by
  intro l
  induction l with
  | nil => intro init; simp
  | cons h t ih =>
    intro init
    simp only [List.foldl_cons, ih, natOrZero, List.mem_cons]
    constructor
    · rintro ⟨⟨h1, h2⟩, h3⟩
      refine ⟨h1, fun x hx => ?_⟩
      rcases hx with rfl | hx
      · exact h2
      · exact h3 x hx
    · rintro ⟨h1, h2⟩
      exact ⟨⟨h1, h2 h (Or.inl rfl)⟩, fun x hx => h2 x (Or.inr hx)⟩

/-- Chars with equal code points are equal. -/
theorem charToNatInj {a b : Char} (h : a.toNat = b.toNat) : a = b := by
  apply Char.eq_of_val_eq
  apply UInt32.toNat.inj
  exact h

/-- A list zipped with itself XORs every pair to zero. -/
theorem zipSelfXor : ∀ (l : List Char), ∀ p ∈ l.zip l, p.1.toNat ^^^ p.2.toNat = 0 := by
  intro l
  induction l with
  | nil => intro p hp; simp at hp
  | cons a as ih =>
    intro p hp
    simp only [List.zip_cons_cons, List.mem_cons] at hp
    rcases hp with rfl | hp
    · simp
    · exact ih p hp

/-- Zipped lists of equal length whose pairs XOR to zero are equal. -/
theorem zipXorZero : ∀ (l1 l2 : List Char), l1.length = l2.length →
    ((∀ p ∈ l1.zip l2, p.1.toNat ^^^ p.2.toNat = 0) ↔ l1 = l2) := by
  intro l1
  induction l1 with
  | nil =>
    intro l2 hlen
    cases l2 with
    | nil => simp
    | cons b bs => simp at hlen
  | cons a as ih =>
    intro l2 hlen
    cases l2 with
    | nil => simp at hlen
    | cons b bs =>
      simp only [List.zip_cons_cons, List.mem_cons, List.cons.injEq]
      constructor
      · intro h
        have h1 := h (a, b) (Or.inl rfl)
        have h2 : ∀ p ∈ as.zip bs, p.1.toNat ^^^ p.2.toNat = 0 :=
          fun p hp => h p (Or.inr hp)
        have hab : a = b := charToNatInj (Nat.xor_eq_zero.mp h1)
        have hlen2 : as.length = bs.length := by
          simpa using hlen
        exact ⟨hab, (ih bs hlen2).mp h2⟩
      · rintro ⟨rfl, rfl⟩
        intro p hp
        rcases hp with rfl | hp
        · simp
        · exact zipSelfXor as p hp

/-- `constantTimeEqual` decides string equality (the functional-correctness
half of the constant-time comparison). -/
theorem constantTimeEqual_iff (a b : String) :
    constantTimeEqual a b = true ↔ a = b := by
  unfold constantTimeEqual
  by_cases hlen : a.length = b.length
  · have hdata : a.data.length = b.data.length := hlen
    rw [if_neg (by simp [hlen])]
    rw [beq_iff_eq, foldlOrZero]
    constructor
    · rintro ⟨-, h⟩
      have hd := (zipXorZero a.data b.data hdata).mp h
      cases a; cases b; exact congrArg String.mk hd
    · rintro rfl
      exact ⟨rfl, zipSelfXor a.data⟩
  · rw [if_pos (by simpa using hlen)]
    constructor
    · intro h
      simp at h
    · rintro rfl
      exact absurd rfl hlen

/-! ## Characterization lemmas for the offline verification engine -/

/-- `afterKey` rephrased through the standalone check predicates. -/
theorem afterKey_cases (ed : SigVerifier) (cfg : Config) (now : Int)
    (s : CacheState) (signed : SignedToken) (p : String) :
    afterKey ed cfg now s signed p
      = (match verifyOfflineToken ed signed p with
         | .error _ => (offlineFail "verification_error", s)
         | .ok false => (offlineFail "signature_invalid", s)
         | .ok true =>
            if licenseKeyMatches s signed then
              if tokenExpired signed now then (offlineFail "expired", s)
              else if graceExpiredChk cfg now s signed then
                (offlineFail "grace_period_expired", s)
              else if tamperChk cfg now s then (offlineFail "clock_tamper", s)
              else (offlineSuccess signed.token,
                    { s with lastSeen := some now })
            else (offlineFail "license_mismatch", s)) := by
  rcases hv : verifyOfflineToken ed signed p with e | b
  · simp only [afterKey, hv]
  · rcases b
    · simp only [afterKey, hv]
    · rcases hl : s.license with _ | cached
      · simp [afterKey, hv, hl, licenseKeyMatches]
      · by_cases hct : constantTimeEqual (signed.token.license_key.getD "")
            (cached.license_key.getD "") = true
        · simp [afterKey, hv, hl, hct, licenseKeyMatches, tokenExpired,
            tokenExpMs, graceExpiredChk, tamperChk, offlineSuccess]
        · simp [afterKey, hv, hl, hct, licenseKeyMatches, tokenExpired,
            tokenExpMs, graceExpiredChk, tamperChk, offlineSuccess]

/-- `quickVerifyCachedOfflineLocal` rephrased through the standalone check
predicates (no grace-period check, no state change). -/
theorem quick_cases (ed : SigVerifier) (cfg : Config) (now : Int)
    (s : CacheState) :
    quickVerifyCachedOfflineLocal ed cfg now s
      = (match s.offlineToken with
         | none => none
         | some signed =>
            match cachedPub s signed with
            | none => none
            | some pub =>
              match verifyOfflineToken ed signed pub with
              | .error _ => some (offlineFail "verification_error")
              | .ok false => some (offlineFail "signature_invalid")
              | .ok true =>
                if licenseKeyMatches s signed then
                  if tokenExpired signed now then some (offlineFail "expired")
                  else if tamperChk cfg now s then
                    some (offlineFail "clock_tamper")
                  else some (offlineSuccess signed.token)
                else some (offlineFail "license_mismatch")) := by
  rcases hs : s.offlineToken with _ | signed
  · simp only [quickVerifyCachedOfflineLocal, hs]
  · rcases hcp : cachedPub s signed with _ | pub
    · simp only [quickVerifyCachedOfflineLocal, hs, hcp]
    · rcases hv : verifyOfflineToken ed signed pub with e | b
      · simp only [quickVerifyCachedOfflineLocal, hs, hcp, hv]
      · rcases b
        · simp only [quickVerifyCachedOfflineLocal, hs, hcp, hv]
        · rcases hl : s.license with _ | cached
          · simp [quickVerifyCachedOfflineLocal, hs, hcp, hv, hl,
              licenseKeyMatches]
          · by_cases hct : constantTimeEqual (signed.token.license_key.getD "")
                (cached.license_key.getD "") = true
            · simp [quickVerifyCachedOfflineLocal, hs, hcp, hv, hl, hct,
                licenseKeyMatches, tokenExpired, tokenExpMs, tamperChk,
                offlineSuccess]
            · simp [quickVerifyCachedOfflineLocal, hs, hcp, hv, hl, hct,
                licenseKeyMatches, tokenExpired, tokenExpMs, tamperChk,
                offlineSuccess]

/-- `verifyCachedOffline` rephrased through key resolution and `afterKey`. -/
theorem vco_cases (ed : SigVerifier) (fetchKey : String → Option String)
    (cfg : Config) (now : Int) (s : CacheState) :
    verifyCachedOffline ed fetchKey cfg now s
      = (match s.offlineToken with
         | none => (offlineFail "no_offline_token", s)
         | some signed =>
            match resolvePub fetchKey s signed with
            | none => (offlineFail "no_public_key", s)
            | some p =>
                afterKey ed cfg now (resolveState fetchKey s signed)
                  signed p) := by
  unfold verifyCachedOffline resolvePub resolveState resolveSigningKey
  rcases hs : s.offlineToken with _ | signed
  · rfl
  · rcases hcp : cachedPub s signed with _ | q
    · rcases hk : tokenKid signed with _ | k
      · simp [hcp, hk]
      · by_cases hk0 : k = ""
        · subst hk0
          simp [hcp, hk]
        · rcases hf : fetchKey k with _ | pk
          · simp [hcp, hk, hk0, hf]
          · by_cases hpk0 : pk = ""
            · subst hpk0
              simp [hcp, hk, hk0, hf]
            · simp [hcp, hk, hk0, hf, hpk0]
    · simp [hcp]

/-- `licenseKeyMatches` depends only on the cached license. -/
theorem licenseKeyMatches_congr {s1 s2 : CacheState} (signed : SignedToken)
    (h : s1.license = s2.license) :
    licenseKeyMatches s1 signed = licenseKeyMatches s2 signed := by
  unfold licenseKeyMatches
  rw [h]

/-- `graceExpiredChk` depends only on the cached license. -/
theorem graceExpiredChk_congr (cfg : Config) (now : Int)
    {s1 s2 : CacheState} (signed : SignedToken)
    (h : s1.license = s2.license) :
    graceExpiredChk cfg now s1 signed = graceExpiredChk cfg now s2 signed := by
  unfold graceExpiredChk
  rw [h]

/-- `cachedPub` depends only on the public-key map. -/
theorem cachedPub_congr {s1 s2 : CacheState} (signed : SignedToken)
    (h : s1.publicKeys = s2.publicKeys) :
    cachedPub s1 signed = cachedPub s2 signed := by
  unfold cachedPub cacheGetPublicKey
  rw [h]

/-- `tamperChk` depends only on the last-seen timestamp. -/
theorem tamperChk_congr (cfg : Config) (now : Int) {s1 s2 : CacheState}
    (h : s1.lastSeen = s2.lastSeen) :
    tamperChk cfg now s1 = tamperChk cfg now s2 := by
  unfold tamperChk
  rw [h]

/-- After the last-seen timestamp is refreshed to the current instant, the
tamper check cannot fire under a nonnegative clock skew. -/
theorem tamperChk_update (cfg : Config) (now : Int) (s : CacheState)
    (hskew : 0 ≤ cfg.maxClockSkewMs) :
    tamperChk cfg now { s with lastSeen := some now } = false := by
  unfold tamperChk
  have h : ¬ (now + cfg.maxClockSkewMs < now) := by omega
  simp [h]

/-- The state `afterKey` returns: cache fields other than the last-seen
timestamp are untouched. -/
theorem afterKey_state (ed : SigVerifier) (cfg : Config) (now : Int)
    (s : CacheState) (signed : SignedToken) (p : String) :
    ((afterKey ed cfg now s signed p).2.license = s.license)
    ∧ ((afterKey ed cfg now s signed p).2.offlineToken = s.offlineToken)
    ∧ ((afterKey ed cfg now s signed p).2.publicKeys = s.publicKeys) := by
  rw [afterKey_cases]
  rcases verifyOfflineToken ed signed p with e | b
  · exact ⟨rfl, rfl, rfl⟩
  · rcases b
    · exact ⟨rfl, rfl, rfl⟩
    · by_cases hm : licenseKeyMatches s signed
      · by_cases he : tokenExpired signed now
        · simp [hm, he]
        · by_cases hg : graceExpiredChk cfg now s signed
          · simp [hm, he, hg]
          · by_cases ht : tamperChk cfg now s
            · simp [hm, he, hg, ht]
            · simp [hm, he, hg, ht]
      · simp [hm]

/-- A successfully resolved public key leaves license, token and last-seen
untouched and is afterwards found in the cache. -/
theorem resolveState_facts (fetchKey : String → Option String)
    (s : CacheState) (signed : SignedToken) (p : String)
    (hrp : resolvePub fetchKey s signed = some p) :
    ((resolveState fetchKey s signed).license = s.license)
    ∧ ((resolveState fetchKey s signed).offlineToken = s.offlineToken)
    ∧ ((resolveState fetchKey s signed).lastSeen = s.lastSeen)
    ∧ (cachedPub (resolveState fetchKey s signed) signed = some p) := by
  rcases hcp : cachedPub s signed with _ | q
  · have hrp' : resolveSigningKey fetchKey (tokenKid signed) = some p := by
      unfold resolvePub at hrp
      rw [hcp] at hrp
      exact hrp
    rcases hk : tokenKid signed with _ | k
    · rw [hk] at hrp'
      simp [resolveSigningKey] at hrp'
    · rw [hk] at hrp'
      simp only [resolveSigningKey] at hrp'
      by_cases hk0 : k = ""
      · rw [if_pos hk0] at hrp'
        simp at hrp'
      · rw [if_neg hk0] at hrp'
        rcases hf : fetchKey k with _ | pk
        · rw [hf] at hrp'
          simp at hrp'
        · rw [hf] at hrp'
          by_cases hpk0 : pk = ""
          · simp [hpk0] at hrp'
          · have hpk : pk = p := by simpa [hpk0] using hrp'
            subst hpk
            have hrsk : resolveSigningKey fetchKey (some k) = some pk := by
              simp [resolveSigningKey, hk0, hf, hpk0]
            have hstate : resolveState fetchKey s signed
                = cacheSetPublicKey s k pk := by
              unfold resolveState
              rw [hk]
              simp only [hcp, hrsk]
            rw [hstate]
            refine ⟨rfl, rfl, rfl, ?_⟩
            unfold cachedPub
            rw [hk]
            have hkt : jsStrTruthy (some k) = true := by
              simp [jsStrTruthy, hk0]
            rw [if_pos hkt]
            unfold cacheGetPublicKey cacheSetPublicKey
            simp [List.lookup, hpk0]
  · have hq : q = p := by
      unfold resolvePub at hrp
      rw [hcp] at hrp
      simpa using hrp
    subst hq
    have hstate : resolveState fetchKey s signed = s := by
      unfold resolveState
      simp only [hcp]
    rw [hstate]
    exact ⟨rfl, rfl, rfl, hcp⟩

/-- When the public key is cached, key resolution leaves the state alone. -/
theorem resolveState_of_cached (fetchKey : String → Option String)
    (s : CacheState) (signed : SignedToken) (q : String)
    (h : cachedPub s signed = some q) :
    resolveState fetchKey s signed = s := by
  unfold resolveState
  rw [h]

/-! ## Claim theorems -/

/-- C10: every non-throwing completion of the online path of
`validateLicense` sets the last-seen timestamp to the current time — also
when the server answered `valid: false`; the final
`setLastSeenTimestamp(Date.now())` is unconditional. -/
theorem claim10_validate_sets_last_seen (now : Int) (raw : ApiValidationResp)
    (licenseKey : String) (st : SdkState) :
    ((validateLicenseOnline now raw licenseKey st).2).cache.lastSeen
      = some now := by
  unfold validateLicenseOnline
  split <;> rfl

/-- C9: the three JSON-backed cache reads catch store errors and degrade to
`null`, but `getLastSeenTimestamp` has no try/catch: a throwing read
propagates out of it, and a corrupt stored value yields `NaN`, not `null` —
contradicting the spec's "store errors degrade to no cached value rather
than propagating". -/
theorem claim9_store_error_behavior :
    lsGetLicense (fun _ => none) errStore = none
    ∧ lsGetOfflineToken (fun _ => none) errStore = none
    ∧ lsGetPublicKey (fun _ => none) errStore "k1" = none
    ∧ lsGetLastSeenTimestamp errStore = .error ()
    ∧ lsGetLicense (fun _ => none) corruptStore = none
    ∧ lsGetLastSeenTimestamp corruptStore = .ok (some .nan) := by
  exact ⟨rfl, rfl, rfl, rfl, rfl, rfl⟩

/-- C7: `deactivate` with a configured product slug but no cached license
raises the `no_license` LicenseError, performs no remote call, and leaves
the store untouched. -/
theorem claim7_deactivate_no_license (cfg : Config)
    (remote : Except JsError String) (s : CacheState)
    (hslug : jsStrTruthy cfg.productSlug = true) (hlic : s.license = none) :
    deactivate cfg remote s = (.licenseError "no_license", s, false) := by
  unfold deactivate
  rw [hslug, hlic]
  rfl

/-- Witness for C7 at a concrete state. -/
theorem claim7_deactivate_no_license_witness :
    deactivate cfgTamper (.ok "resp")
        { license := none, offlineToken := some signedL1,
          publicKeys := [], lastSeen := none }
      = (.licenseError "no_license",
          { license := none, offlineToken := some signedL1,
            publicKeys := [], lastSeen := none }, false) :=
  claim7_deactivate_no_license cfgTamper (.ok "resp") _ (by decide) rfl

/-- C6: `getStatus` reports "active" exactly for a valid non-offline cached
validation; a valid offline validation is reported "offline-valid" and an
invalid offline one "offline-invalid" — offline results never surface under
the online statuses. -/
theorem claim6_status_vocabulary (s : CacheState) :
    ((getStatus s).status = "active" ↔
      ∃ lic v, s.license = some lic ∧ lic.validation = some v ∧
        v.valid = true ∧ v.offline = false)
    ∧ (∀ lic v, s.license = some lic → lic.validation = some v →
        v.valid = true → v.offline = true →
        (getStatus s).status = "offline-valid")
    ∧ (∀ lic v, s.license = some lic → lic.validation = some v →
        v.valid = false → v.offline = true →
        (getStatus s).status = "offline-invalid") := by
  refine ⟨?_, ?_, ?_⟩
  · constructor
    · intro h
      rcases hl : s.license with _ | lic
      · simp [getStatus, hl] at h
      · rcases hv : lic.validation with _ | v
        · simp [getStatus, hl, hv] at h
        · rcases hval : v.valid
          · rcases hoff : v.offline
            · simp [getStatus, hl, hv, hval, hoff] at h
            · simp [getStatus, hl, hv, hval, hoff] at h
          · rcases hoff : v.offline
            · exact ⟨lic, v, rfl, hv, hval, hoff⟩
            · simp [getStatus, hl, hv, hval, hoff] at h
    · rintro ⟨lic, v, hl, hv, hval, hoff⟩
      simp [getStatus, hl, hv, hval, hoff]
  · intro lic v hl hv hval hoff
    simp [getStatus, hl, hv, hval, hoff]
  · intro lic v hl hv hval hoff
    simp [getStatus, hl, hv, hval, hoff]

/-- Witness for C6 at concrete offline-valid and offline-invalid states. -/
theorem claim6_status_vocabulary_witness :
    (getStatus { license := some { licL1 with validation := some offlineOk },
                 offlineToken := none, publicKeys := [],
                 lastSeen := none }).status = "offline-valid"
    ∧ (getStatus { license := some { licL1 with
                    validation := some (offlineFail "expired") },
                   offlineToken := none, publicKeys := [],
                   lastSeen := none }).status = "offline-invalid" :=
  ⟨(claim6_status_vocabulary _).2.1 _ offlineOk rfl rfl rfl rfl,
   (claim6_status_vocabulary _).2.2 _ (offlineFail "expired") rfl rfl rfl rfl⟩

/-- On the tamper fixture, verification reduces to the clock-tamper test:
everything up to check 7 passes by construction. -/
theorem stTamper_eval (now T : Int) :
    verifyCachedOffline evTrue fkNone cfgTamper now (stTamper T)
      = (if (decide (T ≠ 0) && decide (now + 300000 < T)) = true
         then (offlineFail "clock_tamper", stTamper T)
         else (offlineOk, { stTamper T with lastSeen := some now })) := rfl

/-- C2: with a 5-minute max clock skew and last-seen timestamp `T`, an
otherwise-valid cached token is flagged `clock_tamper` exactly when
`now + skew < T`; in particular at `T − 5min1s` it is flagged and at
`T − 4min59s` it verifies. -/
theorem claim2_clock_tamper_boundary (T : Int) (hT : T ≠ 0) :
    (∀ now : Int,
      (verifyCachedOffline evTrue fkNone cfgTamper now (stTamper T)).1
          = offlineFail "clock_tamper" ↔ now + 300000 < T)
    ∧ (verifyCachedOffline evTrue fkNone cfgTamper (T - 301000) (stTamper T)).1
        = offlineFail "clock_tamper"
    ∧ (verifyCachedOffline evTrue fkNone cfgTamper (T - 299000) (stTamper T)).1
        = offlineOk := by
  refine ⟨?_, ?_, ?_⟩
  · intro now
    rw [stTamper_eval now T]
    by_cases h : now + 300000 < T
    · rw [if_pos (by simp [hT, h])]
      simp [h]
    · rw [if_neg (by simp [h])]
      simp only [h, iff_false]
      intro hbad
      simp [offlineOk, offlineFail] at hbad
  · rw [stTamper_eval (T - 301000) T]
    rw [if_pos (by simp only [Bool.and_eq_true, decide_eq_true_eq]
                   exact ⟨hT, by omega⟩)]
  · rw [stTamper_eval (T - 299000) T]
    rw [if_neg (by simp only [Bool.and_eq_true, decide_eq_true_eq]
                   rintro ⟨-, h2⟩
                   omega)]

/-- Witness for C2 at `T = 1000000`. -/
theorem claim2_clock_tamper_boundary_witness :
    (verifyCachedOffline evTrue fkNone cfgTamper (1000000 - 301000)
        (stTamper 1000000)).1
      = offlineFail "clock_tamper" :=
  (claim2_clock_tamper_boundary 1000000 (by decide)).2.1

/-- C3 counterexample: the grace pivot the code uses is
`last_validated || activated_at`, not `max(last_validated, activated_at)`.
With `last_validated` at epoch 0, `activated_at` at day 8 and the clock at
day 9, elapsed time since the max is 1 day (within the 7-day grace), yet
the code reports `grace_period_expired`. -/
theorem claim3_grace_pivot_counterexample :
    (verifyCachedOffline evTrue fkNone cfgGrace 777600000
        (stGrace (some 0) (some 691200000))).1
      = offlineFail "grace_period_expired"
    ∧ 777600000 - max 0 691200000 ≤ 7 * 24 * 60 * 60 * 1000 := by
  exact ⟨rfl, by decide⟩

/-- On the grace fixture with `last_validated` present, verification reduces
to the elapsed-time test against `last_validated`. -/
theorem stGrace_eval_lv (now lv : Int) (aa : Option Int) :
    verifyCachedOffline evTrue fkNone cfgGrace now (stGrace (some lv) aa)
      = (if decide (now - lv > 604800000) = true
         then (offlineFail "grace_period_expired", stGrace (some lv) aa)
         else (offlineOk, { stGrace (some lv) aa with lastSeen := some now })) :=
  rfl

/-- On the grace fixture with `last_validated` absent, verification reduces
to the elapsed-time test against `activated_at`. -/
theorem stGrace_eval_aa (now aa : Int) :
    verifyCachedOffline evTrue fkNone cfgGrace now (stGrace none (some aa))
      = (if decide (now - aa > 604800000) = true
         then (offlineFail "grace_period_expired", stGrace none (some aa))
         else (offlineOk, { stGrace none (some aa) with
                              lastSeen := some now })) :=
  rfl

/-- C3 (amended): with `max_offline_days = 7` and no token expiry, the
elapsed time since `last_validated` — falling back to `activated_at` when
`last_validated` is absent — is compared against 7 days; strictly exceeding
it yields `grace_period_expired`, and the 7d∓1s boundary behaves as
claimed. -/
theorem claim3_grace_boundary_amended :
    (∀ (now lv : Int) (aa : Option Int),
      ((verifyCachedOffline evTrue fkNone cfgGrace now
          (stGrace (some lv) aa)).1
        = offlineFail "grace_period_expired") ↔ now - lv > 604800000)
    ∧ (∀ now aa : Int,
      ((verifyCachedOffline evTrue fkNone cfgGrace now
          (stGrace none (some aa))).1
        = offlineFail "grace_period_expired") ↔ now - aa > 604800000)
    ∧ (verifyCachedOffline evTrue fkNone cfgGrace 604799000
        (stGrace (some 0) (some 0))).1 = offlineOk
    ∧ (verifyCachedOffline evTrue fkNone cfgGrace 604801000
        (stGrace (some 0) (some 0))).1
        = offlineFail "grace_period_expired" := by
  refine ⟨?_, ?_, ?_, ?_⟩
  · intro now lv aa
    rw [stGrace_eval_lv now lv aa]
    by_cases h : now - lv > 604800000
    · rw [if_pos (by simp [h])]
      simp [h]
    · rw [if_neg (by simp [h])]
      simp only [h, iff_false]
      intro hbad
      simp [offlineOk, offlineFail] at hbad
  · intro now aa
    rw [stGrace_eval_aa now aa]
    by_cases h : now - aa > 604800000
    · rw [if_pos (by simp [h])]
      simp [h]
    · rw [if_neg (by simp [h])]
      simp only [h, iff_false]
      intro hbad
      simp [offlineOk, offlineFail] at hbad
  · rfl
  · rfl

/-- C4 counterexample: with the public key cached, no token expiry, a 7-day
grace period and 8 days elapsed, `verifyCachedOffline` reports
`grace_period_expired` while the quick/local variant reports a valid
result — the quick variant also skips the grace-period check, so the two
are not content-equal on this state. -/
theorem claim4_quick_vs_full_counterexample :
    quickVerifyCachedOfflineLocal evTrue cfgGrace 691200000
        (stGrace (some 0) (some 0))
      = some offlineOk
    ∧ (verifyCachedOffline evTrue fkNone cfgGrace 691200000
        (stGrace (some 0) (some 0))).1
      = offlineFail "grace_period_expired"
    ∧ offlineOk ≠ offlineFail "grace_period_expired" :=
  ⟨rfl, rfl, by decide⟩

/-- C4 (amended): when the cached token's public key is already in the
cache, the quick/local variant agrees with the network-capable
`verifyCachedOffline` except that it also skips the grace-period check: the
results are content-equal whenever the grace-period check does not decide
the outcome; with the token or its public key missing from the cache it
returns `null` rather than a failure code. -/
theorem claim4_quick_local_refinement (ed : SigVerifier)
    (fetchKey : String → Option String) (cfg : Config) (now : Int)
    (s : CacheState) :
    (∀ signed p, s.offlineToken = some signed → cachedPub s signed = some p →
      (verifyCachedOffline ed fetchKey cfg now s).1.code
          ≠ some "grace_period_expired" →
      quickVerifyCachedOfflineLocal ed cfg now s
        = some (verifyCachedOffline ed fetchKey cfg now s).1)
    ∧ (s.offlineToken = none →
        quickVerifyCachedOfflineLocal ed cfg now s = none)
    ∧ (∀ signed, s.offlineToken = some signed → cachedPub s signed = none →
        quickVerifyCachedOfflineLocal ed cfg now s = none) := by
  refine ⟨?_, ?_, ?_⟩
  · intro signed p hs hp hg
    have hrp : resolvePub fetchKey s signed = some p := by
      unfold resolvePub
      rw [hp]
    have hrs : resolveState fetchKey s signed = s := by
      unfold resolveState
      simp only [hp]
    have hfull : verifyCachedOffline ed fetchKey cfg now s
        = afterKey ed cfg now s signed p := by
      rw [vco_cases]
      simp only [hs, hrp, hrs]
    rw [hfull] at hg ⊢
    rw [quick_cases]
    simp only [hs, hp]
    rw [afterKey_cases] at hg ⊢
    rcases hv : verifyOfflineToken ed signed p with e | b
    · simp only [hv]
    · rcases b
      · simp only [hv]
      · simp only [hv] at hg ⊢
        by_cases hm : licenseKeyMatches s signed = true
        · by_cases he : tokenExpired signed now = true
          · simp [hm, he]
          · by_cases hgr : graceExpiredChk cfg now s signed = true
            · simp [hm, he, hgr, offlineFail] at hg
            · by_cases ht : tamperChk cfg now s = true
              · simp [hm, he, hgr, ht]
              · simp [hm, he, hgr, ht]
        · simp [hm]
  · intro hs
    rw [quick_cases]
    simp only [hs]
  · intro signed hs hcp
    rw [quick_cases]
    simp only [hs, hcp]

/-- Witness for C4 at a state whose public key is cached and whose
grace-period check cannot fire. -/
theorem claim4_quick_local_refinement_witness :
    quickVerifyCachedOfflineLocal evTrue cfgTamper 5 (stTamper 1)
      = some (verifyCachedOffline evTrue fkNone cfgTamper 5 (stTamper 1)).1 :=
  (claim4_quick_local_refinement evTrue fkNone cfgTamper 5 (stTamper 1)).1
    signedL1 "PK" rfl rfl (by decide)

/-- C1: the failure checks of `verifyCachedOffline` short-circuit in the
fixed order: missing token (`no_offline_token`); public-key resolution
(`no_public_key`); signature verification — its verdict alone fixes
`signature_invalid`, regardless of license-key mismatch or expiry; then the
constant-time license-key binding fixes `license_mismatch` regardless of
expiry; then expiry; then the grace period; then clock tamper; else
success. -/
theorem claim1_check_order (ed : SigVerifier)
    (fetchKey : String → Option String) (cfg : Config) (now : Int)
    (s : CacheState) :
    (s.offlineToken = none →
      (verifyCachedOffline ed fetchKey cfg now s).1
        = offlineFail "no_offline_token")
    ∧ (∀ signed, s.offlineToken = some signed →
        (resolvePub fetchKey s signed = none →
          (verifyCachedOffline ed fetchKey cfg now s).1
            = offlineFail "no_public_key")
        ∧ (∀ p, resolvePub fetchKey s signed = some p →
            (verifyOfflineToken ed signed p = .ok false →
              (verifyCachedOffline ed fetchKey cfg now s).1
                = offlineFail "signature_invalid")
            ∧ (verifyOfflineToken ed signed p = .ok true →
              (licenseKeyMatches s signed = false →
                (verifyCachedOffline ed fetchKey cfg now s).1
                  = offlineFail "license_mismatch")
              ∧ (licenseKeyMatches s signed = true →
                (tokenExpired signed now = true →
                  (verifyCachedOffline ed fetchKey cfg now s).1
                    = offlineFail "expired")
                ∧ (tokenExpired signed now = false →
                  (graceExpiredChk cfg now s signed = true →
                    (verifyCachedOffline ed fetchKey cfg now s).1
                      = offlineFail "grace_period_expired")
                  ∧ (graceExpiredChk cfg now s signed = false →
                    (tamperChk cfg now s = true →
                      (verifyCachedOffline ed fetchKey cfg now s).1
                        = offlineFail "clock_tamper")
                    ∧ (tamperChk cfg now s = false →
                      (verifyCachedOffline ed fetchKey cfg now s).1
                        = offlineSuccess signed.token))))))) := by
  refine ⟨?_, ?_⟩
  · intro h
    rw [vco_cases]
    simp only [h]
  · intro signed hs
    refine ⟨?_, ?_⟩
    · intro h
      rw [vco_cases]
      simp only [hs, h]
    · intro p hp
      obtain ⟨hLic, hTok, hSeen, hPub⟩ :=
        resolveState_facts fetchKey s signed p hp
      have hfull : verifyCachedOffline ed fetchKey cfg now s
          = afterKey ed cfg now (resolveState fetchKey s signed) signed p := by
        rw [vco_cases]
        simp only [hs, hp]
      have hmEq := licenseKeyMatches_congr signed hLic
      have hgEq := graceExpiredChk_congr cfg now signed hLic
      have htEq := tamperChk_congr cfg now hSeen
      rw [hfull, afterKey_cases]
      refine ⟨?_, ?_⟩
      · intro hv
        simp only [hv]
      · intro hv
        simp only [hv]
        refine ⟨?_, ?_⟩
        · intro hm
          simp [hmEq.trans hm]
        · intro hm
          refine ⟨?_, ?_⟩
          · intro he
            simp [hmEq.trans hm, he]
          · intro he
            refine ⟨?_, ?_⟩
            · intro hgr
              simp [hmEq.trans hm, he, hgEq.trans hgr]
            · intro hgr
              refine ⟨?_, ?_⟩
              · intro ht
                simp [hmEq.trans hm, he, hgEq.trans hgr, htEq.trans ht]
              · intro ht
                simp [hmEq.trans hm, he, hgEq.trans hgr, htEq.trans ht]

/-- Witness for C1: an expired token that also verifies and matches is
reported `expired`; and a forged (signature-invalid) token that also
mismatches and is expired is reported `signature_invalid`. -/
theorem claim1_check_order_witness :
    (verifyCachedOffline evTrue fkNone cfgTamper 5000 stExp).1
      = offlineFail "expired"
    ∧ (verifyCachedOffline evFalse fkNone cfgTamper 5000 stExp).1
      = offlineFail "signature_invalid" := by
  constructor
  · exact ((((claim1_check_order evTrue fkNone cfgTamper 5000 stExp).2
      signedExp rfl).2 "PK" rfl).2 rfl).2 (by decide) |>.1 (by decide)
  · exact (((claim1_check_order evFalse fkNone cfgTamper 5000 stExp).2
      signedExp rfl).2 "PK" rfl).1 rfl

/-- C8 counterexample: under a merely non-decreasing clock two consecutive
calls need not agree — the token expiring at instant 2000 verifies at
`now = 2000` but is `expired` at `now = 2001`, with no external state change
in between. -/
theorem claim8_idempotence_counterexample :
    (2000 : Int) ≤ 2001
    ∧ (verifyCachedOffline evTrue fkNone cfgTamper 2001
          (verifyCachedOffline evTrue fkNone cfgTamper 2000 stExp).2).1
        ≠ (verifyCachedOffline evTrue fkNone cfgTamper 2000 stExp).1 := by
  constructor
  · decide
  · decide

/-- C8 (amended): `verifyCachedOffline` is idempotent at a fixed clock
reading: with no intervening external state change, the same current time
and a nonnegative configured clock skew, a second call returns a
content-equal result — even though the first call may have cached a fetched
public key and refreshed the last-seen timestamp. -/
theorem claim8_idempotent_same_clock (ed : SigVerifier)
    (fetchKey : String → Option String) (cfg : Config) (now : Int)
    (s : CacheState) (hskew : 0 ≤ cfg.maxClockSkewMs) :
    (verifyCachedOffline ed fetchKey cfg now
        (verifyCachedOffline ed fetchKey cfg now s).2).1
      = (verifyCachedOffline ed fetchKey cfg now s).1 := by
  rcases hs : s.offlineToken with _ | signed
  · have h1 : verifyCachedOffline ed fetchKey cfg now s
        = (offlineFail "no_offline_token", s) := by
      rw [vco_cases]
      simp only [hs]
    simp [h1]
  · rcases hrp : resolvePub fetchKey s signed with _ | p
    · have h1 : verifyCachedOffline ed fetchKey cfg now s
          = (offlineFail "no_public_key", s) := by
        rw [vco_cases]
        simp only [hs, hrp]
      simp [h1]
    · obtain ⟨hLic, hTok, hSeen, hPub⟩ :=
        resolveState_facts fetchKey s signed p hrp
      have h1 : verifyCachedOffline ed fetchKey cfg now s
          = afterKey ed cfg now (resolveState fetchKey s signed) signed p := by
        rw [vco_cases]
        simp only [hs, hrp]
      obtain ⟨hL2, hT2, hP2⟩ :=
        afterKey_state ed cfg now (resolveState fetchKey s signed) signed p
      have hs2 : (afterKey ed cfg now (resolveState fetchKey s signed)
          signed p).2.offlineToken = some signed := by
        rw [hT2, hTok, hs]
      have hcp2 : cachedPub (afterKey ed cfg now
          (resolveState fetchKey s signed) signed p).2 signed = some p := by
        rw [cachedPub_congr signed hP2]
        exact hPub
      have hrp2 : resolvePub fetchKey (afterKey ed cfg now
          (resolveState fetchKey s signed) signed p).2 signed = some p := by
        unfold resolvePub
        rw [hcp2]
      have hrs2 : resolveState fetchKey (afterKey ed cfg now
          (resolveState fetchKey s signed) signed p).2 signed
          = (afterKey ed cfg now (resolveState fetchKey s signed)
              signed p).2 :=
        resolveState_of_cached fetchKey _ signed p hcp2
      have h2 : verifyCachedOffline ed fetchKey cfg now
          (afterKey ed cfg now (resolveState fetchKey s signed) signed p).2
          = afterKey ed cfg now (afterKey ed cfg now
              (resolveState fetchKey s signed) signed p).2 signed p := by
        rw [vco_cases]
        simp only [hs2, hrp2, hrs2]
      rw [h1, h2]
      rcases hv : verifyOfflineToken ed signed p with e | b
      · have hak : afterKey ed cfg now (resolveState fetchKey s signed)
            signed p = (offlineFail "verification_error",
              resolveState fetchKey s signed) := by
          rw [afterKey_cases]
          simp only [hv]
        simp [hak]
      · rcases b
        · have hak : afterKey ed cfg now (resolveState fetchKey s signed)
              signed p = (offlineFail "signature_invalid",
                resolveState fetchKey s signed) := by
            rw [afterKey_cases]
            simp only [hv]
          simp [hak]
        · by_cases hm : licenseKeyMatches (resolveState fetchKey s signed)
              signed = true
          · by_cases he : tokenExpired signed now = true
            · have hak : afterKey ed cfg now (resolveState fetchKey s signed)
                  signed p = (offlineFail "expired",
                    resolveState fetchKey s signed) := by
                rw [afterKey_cases]
                simp [hv, hm, he]
              simp [hak]
            · by_cases hgr : graceExpiredChk cfg now
                  (resolveState fetchKey s signed) signed = true
              · have hak : afterKey ed cfg now
                    (resolveState fetchKey s signed) signed p
                    = (offlineFail "grace_period_expired",
                        resolveState fetchKey s signed) := by
                  rw [afterKey_cases]
                  simp [hv, hm, he, hgr]
                simp [hak]
              · by_cases ht : tamperChk cfg now
                    (resolveState fetchKey s signed) = true
                · have hak : afterKey ed cfg now
                      (resolveState fetchKey s signed) signed p
                      = (offlineFail "clock_tamper",
                          resolveState fetchKey s signed) := by
                    rw [afterKey_cases]
                    simp [hv, hm, he, hgr, ht]
                  simp [hak]
                · have hak : afterKey ed cfg now
                      (resolveState fetchKey s signed) signed p
                      = (offlineSuccess signed.token,
                          { resolveState fetchKey s signed with
                              lastSeen := some now }) := by
                    rw [afterKey_cases]
                    simp [hv, hm, he, hgr, ht]
                  rw [hak]
                  have hm2 : licenseKeyMatches
                      { resolveState fetchKey s signed with
                          lastSeen := some now } signed = true :=
                    (licenseKeyMatches_congr signed rfl).trans hm
                  have hgr2 : graceExpiredChk cfg now
                      { resolveState fetchKey s signed with
                          lastSeen := some now } signed = false :=
                    (graceExpiredChk_congr cfg now signed rfl).trans
                      (by simpa using hgr)
                  have ht2 : tamperChk cfg now
                      { resolveState fetchKey s signed with
                          lastSeen := some now } = false :=
                    tamperChk_update cfg now _ hskew
                  rw [afterKey_cases]
                  simp [hv, hm2, he, hgr2, ht2]
          · have hak : afterKey ed cfg now (resolveState fetchKey s signed)
                signed p = (offlineFail "license_mismatch",
                  resolveState fetchKey s signed) := by
              rw [afterKey_cases]
              simp [hv, hm]
            simp [hak]

/-- Witness for C8 at a concrete state whose first call succeeds and
refreshes the last-seen timestamp. -/
theorem claim8_idempotent_same_clock_witness :
    (verifyCachedOffline evTrue fkNone cfgTamper 5
        (verifyCachedOffline evTrue fkNone cfgTamper 5 (stTamper 1)).2).1
      = (verifyCachedOffline evTrue fkNone cfgTamper 5 (stTamper 1)).1 :=
  claim8_idempotent_same_clock evTrue fkNone cfgTamper 5 (stTamper 1)
    (by decide)

/-- The backoff delays the retry loop sleeps from attempt `a` onward are
`retryDelay · 2^(a+j)` for consecutive `j`. -/
theorem apiCallAux_delays (cfg : RetryConfig)
    (responses : Nat → Except JsError Nat) :
    ∀ (fuel attempt : Nat), ∃ m,
      (apiCallAux cfg responses attempt fuel).2
        = (List.range m).map (fun j => cfg.retryDelay * 2 ^ (attempt + j)) := by
  intro fuel
  induction fuel with
  | zero =>
    intro attempt
    exact ⟨0, by simp [apiCallAux]⟩
  | succ n ih =>
    intro attempt
    rcases hr : responses attempt with e | r
    · by_cases hc : (attempt < cfg.maxRetries && shouldRetryError e) = true
      · obtain ⟨m, hm⟩ := ih (attempt + 1)
        refine ⟨m + 1, ?_⟩
        simp only [apiCallAux, hr, hc, if_true]
        rw [hm, List.range_succ_eq_map]
        simp only [List.map_cons, List.map_map]
        refine congrArg₂ List.cons (by simp) ?_
        apply List.map_congr_left
        intro j _
        simp only [Function.comp]
        congr 1
        congr 1
        omega
      · refine ⟨0, ?_⟩
        simp only [apiCallAux, hr]
        rw [if_neg hc]
        simp
    · exact ⟨0, by simp [apiCallAux, hr]⟩

/-- C5: the retry decision is exactly — a fetch `TypeError` or HTTP status
0 (transport failure), 408, 429, or a 5xx other than 500/501 is retried;
every other error propagates immediately with no backoff sleep; and the
delay slept before retry `i+1` is `retryDelay · 2^i`. -/
theorem claim5_retry_policy :
    (∀ e : JsError, shouldRetryError e = true ↔
      ((∃ msg, e = .typeError msg ∧ hasSub msg "fetch" = true)
        ∨ (∃ msg status, e = .apiError msg status ∧
            (status = 0 ∨ status = 408 ∨ status = 429 ∨
              (500 ≤ status ∧ status < 600 ∧ status ≠ 500 ∧ status ≠ 501)))))
    ∧ (∀ (cfg : RetryConfig) (responses : Nat → Except JsError Nat)
        (e : JsError), responses 0 = .error e → shouldRetryError e = false →
        apiCall cfg responses = (.error e, []))
    ∧ (∀ (cfg : RetryConfig) (responses : Nat → Except JsError Nat)
        (i : Nat) (h : i < (apiCall cfg responses).2.length),
        (apiCall cfg responses).2.get ⟨i, h⟩ = cfg.retryDelay * 2 ^ i) := by
  refine ⟨?_, ?_, ?_⟩
  · intro e
    rcases e with msg | ⟨msg, status⟩ | _
    · constructor
      · intro h
        exact Or.inl ⟨msg, rfl, h⟩
      · rintro (⟨msg2, heq, hsub⟩ | ⟨msg2, st2, heq, -⟩)
        · cases heq
          exact hsub
        · cases heq
    · simp only [shouldRetryError]
      constructor
      · intro h
        refine Or.inr ⟨msg, status, rfl, ?_⟩
        by_cases h1 : ((status ≥ 502 && status < 600) : Bool) = true
        · simp only [Bool.and_eq_true, decide_eq_true_eq] at h1
          exact Or.inr (Or.inr (Or.inr
            ⟨by omega, by omega, by omega, by omega⟩))
        · rw [if_neg h1] at h
          by_cases h2 : ((status = 0 || status = 408 || status = 429 :
              Bool)) = true
          · simp only [Bool.or_eq_true, decide_eq_true_eq] at h2
            rcases h2 with (h2 | h2) | h2
            · exact Or.inl h2
            · exact Or.inr (Or.inl h2)
            · exact Or.inr (Or.inr (Or.inl h2))
          · rw [if_neg h2] at h
            exact absurd h (by simp)
      · rintro (⟨msg2, heq, -⟩ | ⟨msg2, st2, heq, hcond⟩)
        · cases heq
        · injection heq with heq1 heq2
          subst heq1
          subst heq2
          rcases hcond with h0 | h408 | h429 | h5xx
          · subst h0
            rfl
          · subst h408
            rfl
          · subst h429
            rfl
          · have h1 : ((status ≥ 502 && status < 600) : Bool) = true := by
              simp only [Bool.and_eq_true, decide_eq_true_eq]
              omega
            rw [if_pos h1]
    · constructor
      · intro h
        simp [shouldRetryError] at h
      · rintro (⟨msg, heq, -⟩ | ⟨msg, st, heq, -⟩) <;> cases heq
  · intro cfg responses e h0 hnr
    show apiCallAux cfg responses 0 (cfg.maxRetries + 1) = (.error e, [])
    simp [apiCallAux, h0, hnr]
  · intro cfg responses i h
    obtain ⟨m, hm⟩ := apiCallAux_delays cfg responses (cfg.maxRetries + 1) 0
    have hm2 : (apiCall cfg responses).2
        = (List.range m).map (fun j => cfg.retryDelay * 2 ^ (0 + j)) := hm
    have key : ∀ (i : Nat) (h2 : i < ((List.range m).map
        (fun j => cfg.retryDelay * 2 ^ (0 + j))).length),
        ((List.range m).map (fun j => cfg.retryDelay * 2 ^ (0 + j))).get
            ⟨i, h2⟩
          = cfg.retryDelay * 2 ^ i := by
      intro i h2
      have h3 : i < m := by simpa using h2
      simp [List.get_eq_getElem, Nat.zero_add]
    revert h
    rw [hm2]
    exact key i

/-- Witness for C5: a non-retryable 400 propagates with no sleeps, and with
base delay 7 the delay before the second retry is `7 · 2^1`. -/
theorem claim5_retry_policy_witness :
    apiCall cfgRetryW respFail = (.error (.apiError "bad" 400), [])
    ∧ (apiCall cfgRetryW respW).2.get ⟨1, by decide⟩ = 7 * 2 ^ 1 := by
  constructor
  · exact claim5_retry_policy.2.1 cfgRetryW respFail (.apiError "bad" 400)
      rfl rfl
  · exact claim5_retry_policy.2.2 cfgRetryW respW 1 (by decide)

end LicenseSeat
